import Mathlib

/-!
Shallow embedding of the MUSICAI2 acquisition scheduler
(`src/MUSICAI2/get_top_tracks.py` and `src/MUSICAI2/youtube.py`).

Python exceptions are modelled with `Except Err`; the possibly
non-terminating `while` loop of `download_genre_tracks` is given a fuel
parameter and returns `none` when the fuel runs out.  Each search call of
a paginator run is recorded as a `(limit, offset)` pair so that claims
about pagination offsets can be stated.
-/

abbrev Err := String

/-- A video record as built by `YouTubeAPI.search` (youtube.py lines 96-101):
exactly the keys `title`, `url`, `duration`, `id`. -/
structure Candidate where
  title : String
  url : String
  duration : Nat
  id : String
deriving Repr, DecidableEq

/-- The media source consumed by `download_genre_tracks`:
`search query limit offset` and `download url` (returning Python's
`Optional[str]`).  Either call may raise, hence `Except Err`. -/
structure MediaSource where
  search : String → Nat → Nat → Except Err (List Candidate)
  download : String → Except Err (Option String)

/-- get_top_tracks.py line 15. -/
def MAX_WORKERS : Nat := 4

/-- get_top_tracks.py line 16. -/
def BATCH_SIZE : Nat := 50

/-- Python truthiness of an `Optional[str]`: `None` and the empty string
are falsy. -/
def pyTruthy : Option String → Bool
  | none => false
  | some s => !(s.isEmpty)

/-- The `ThreadPoolExecutor` block of `download_genre_tracks`
(get_top_tracks.py lines 102-115): one download is submitted per result
and `downloaded` is incremented once per truthy `future.result()`;
the first exception re-raised by a `result()` call propagates. -/
def dispatchE (download : String → Except Err (Option String)) :
    List Candidate → Except Err Nat
  | [] => .ok 0
  | v :: rest =>
    match download v.url with
    | .error e => .error e
    | .ok r =>
      match dispatchE download rest with
      | .error e => .error e
      | .ok n => .ok (n + if pyTruthy r then 1 else 0)

/-- The per-term `while downloaded < tracks_per_term` loop of
`download_genre_tracks` (get_top_tracks.py lines 83-117), with fuel.
Returns the final `downloaded` count together with the list of
`(limit, offset)` arguments of the search calls issued, or `none` when
the fuel is exhausted. -/
def runTerm (src : MediaSource) (term : String) (quota : Nat) :
    Nat → Nat → Nat → Except Err (Option (Nat × List (Nat × Nat)))
  | 0, _, _ => .ok none
  | fuel + 1, downloaded, batch =>
    if downloaded < quota then
      -- remaining = quota - downloaded; current_batch = min BATCH_SIZE remaining
      match src.search term (min BATCH_SIZE (quota - downloaded)) (batch * BATCH_SIZE) with
      | .error e => .error e
      | .ok results =>
        if results.isEmpty then
          .ok (some (downloaded,
            [(min BATCH_SIZE (quota - downloaded), batch * BATCH_SIZE)]))
        else
          match dispatchE src.download results with
          | .error e => .error e
          | .ok n =>
            match runTerm src term quota fuel (downloaded + n) (batch + 1) with
            | .error e => .error e
            | .ok none => .ok none
            | .ok (some (final, calls)) =>
              .ok (some (final,
                (min BATCH_SIZE (quota - downloaded), batch * BATCH_SIZE) :: calls))
    else .ok (some (downloaded, []))

/-- Line 74 of get_top_tracks.py, `count // len(search_terms)`: Python
raises `ZeroDivisionError` when the term list is empty, for any count. -/
def quotaPlan (count nTerms : Nat) : Except Err Nat :=
  if nTerms = 0 then .error "ZeroDivisionError" else .ok (count / nTerms)

/-- The `for term in search_terms` loop of `download_genre_tracks`
(get_top_tracks.py lines 78-118): every term is run with the same quota;
an exception raised while processing a term propagates (there is no
handler in the function).  Returns the per-term fetched counts. -/
def runTerms (src : MediaSource) (quota fuel : Nat) :
    List String → Except Err (Option (List Nat))
  | [] => .ok (some [])
  | t :: rest =>
    match runTerm src t quota fuel 0 0 with
    | .error e => .error e
    | .ok none => .ok none
    | .ok (some (f, _)) =>
      match runTerms src quota fuel rest with
      | .error e => .error e
      | .ok none => .ok none
      | .ok (some fs) => .ok (some (f :: fs))

/-- `download_genre_tracks` (get_top_tracks.py lines 59-118): compute the
per-term quota (line 74), then process every search term with it. -/
def download_genre_tracks (src : MediaSource) (search_terms : List String)
    (count fuel : Nat) : Except Err (Option (List Nat)) :=
  match quotaPlan count search_terms.length with
  | .error e => .error e
  | .ok quota => runTerms src quota fuel search_terms

/-- The genre loop of `main` (get_top_tracks.py lines 132-138): each genre
is a `(name, search_terms, count)` triple; `download_genre_tracks` is
called for each in order, with no exception handler, so any error aborts
the remaining genres. -/
def mainRun (src : MediaSource) (fuel : Nat) :
    List (String × List String × Nat) → Except Err (Option (List (String × List Nat)))
  | [] => .ok (some [])
  | (g, terms, count) :: rest =>
    match download_genre_tracks src terms count fuel with
    | .error e => .error e
    | .ok none => .ok none
    | .ok (some fs) =>
      match mainRun src fuel rest with
      | .error e => .error e
      | .ok none => .ok none
      | .ok (some rs) => .ok (some ((g, fs) :: rs))

/-- A raw playlist entry as returned by `yt_dlp`, with the four fields
`YouTubeAPI.search` reads via `entry.get(...)` (youtube.py lines 96-101);
each may be absent. -/
structure RawEntry where
  title : Option String
  url : Option String
  duration : Option Nat
  id : Option String
deriving Repr, DecidableEq

/-- Building one video record from a raw entry, with the `entry.get`
defaults of youtube.py lines 96-101. -/
def processEntry (e : RawEntry) : Candidate :=
  { title := e.title.getD ""
    url := e.url.getD ""
    duration := e.duration.getD 0
    id := e.id.getD "" }

namespace YouTubeAPI

/-- `YouTubeAPI.search` (youtube.py lines 57-107).  The `yt_dlp`
extraction is abstracted as `extract query n` where `n = limit + offset`
is the cap passed both as `playlistend` and in `ytsearch{n}` (written
with braces in the source, lines 79 and 85); its outcome is either an
exception, `none` when the raw result is falsy or lacks an `entries`
key (line 89), or the list of entries, each possibly `None`.  The first
`offset` entries are skipped (line 94) and falsy entries dropped
(line 95); any exception is caught and the empty list returned
(lines 105-107). -/
def search (extract : String → Nat → Except Err (Option (List (Option RawEntry))))
    (query : String) (limit offset : Nat) : List Candidate :=
  match extract query (limit + offset) with
  | .error _ => []
  | .ok none => []
  | .ok (some entries) => ((entries.drop offset).filterMap id).map processEntry

end YouTubeAPI

/-- A media source whose search always returns the empty page. -/
def emptySrc : MediaSource :=
  { search := fun _ _ _ => .ok []
    download := fun _ => .ok none }

/-- A media source whose search returns one candidate and whose download
always raises. -/
def raisingSrc : MediaSource :=
  { search := fun _ _ _ => .ok [{ title := "t", url := "u", duration := 0, id := "i" }]
    download := fun _ => .error "boom" }

/-- A media source for the pagination-offset counterexample: 50 fetchable
candidates at offset 0, one unfetchable candidate at offset 50, nothing
beyond. -/
def partialPageSrc : MediaSource :=
  { search := fun _ _ offset =>
      if offset = 0 then
        .ok (List.replicate 50 { title := "a", url := "good", duration := 0, id := "x" })
      else if offset = 50 then
        .ok [{ title := "b", url := "bad", duration := 0, id := "y" }]
      else .ok []
    download := fun u => if u = "good" then .ok (some "p.mp3") else .ok none }

/-- A media source with one unfetchable candidate at offset 0 and nothing
beyond it. -/
def oneFailSrc : MediaSource :=
  { search := fun _ _ offset =>
      if offset = 0 then
        .ok [{ title := "b", url := "bad", duration := 0, id := "y" }]
      else .ok []
    download := fun _ => .ok none }

/-- The dispatcher never counts more successes than it was given
candidates. -/
theorem dispatchE_le_length (download : String → Except Err (Option String))
    (l : List Candidate) (n : Nat) (h : dispatchE download l = .ok n) :
    n ≤ l.length := by
  induction l generalizing n with
  | nil => simp [dispatchE] at h; omega
  | cons v rest ih =>
    simp only [dispatchE] at h
    cases hd : download v.url with
    | error e => rw [hd] at h; exact absurd h (by simp)
    | ok r =>
      rw [hd] at h
      cases hrest : dispatchE download rest with
      | error e => rw [hrest] at h; exact absurd h (by simp)
      | ok m =>
        rw [hrest] at h
        have hm := ih m hrest
        simp only [Except.ok.injEq] at h
        subst h
        simp only [List.length_cons]
        split <;> omega

/-- C1: for every paginator run whose media source never returns more
results than the requested limit, the running `downloaded` count of every
loop state bounded by the quota stays bounded by the quota, so the final
fetched count never exceeds `tracks_per_term`. -/
theorem downloaded_never_exceeds_quota
    (src : MediaSource) (term : String) (quota fuel d b r : Nat)
    (calls : List (Nat × Nat))
    (hsearch : ∀ q l o res, src.search q l o = .ok res → res.length ≤ l)
    (hd : d ≤ quota)
    (h : runTerm src term quota fuel d b = .ok (some (r, calls))) :
    r ≤ quota := by
  induction fuel generalizing d b r calls with
  | zero => simp [runTerm] at h
  | succ fuel ih =>
    rw [runTerm] at h
    by_cases hlt : d < quota
    · rw [if_pos hlt] at h
      split at h
      · exact absurd h (by simp)
      · rename_i results hs
        split at h
        · simp only [Except.ok.injEq, Option.some.injEq, Prod.mk.injEq] at h
          omega
        · split at h
          · exact absurd h (by simp)
          · rename_i n hdisp
            split at h
            · exact absurd h (by simp)
            · exact absurd h (by simp)
            · rename_i final cs hrec
              simp only [Except.ok.injEq, Option.some.injEq, Prod.mk.injEq] at h
              have hn : n ≤ results.length := dispatchE_le_length _ _ _ hdisp
              have hres : results.length ≤ min BATCH_SIZE (quota - d) :=
                hsearch _ _ _ _ hs
              have hfin := ih (d + n) (b + 1) final cs (by omega) hrec
              omega
    · rw [if_neg hlt] at h
      simp only [Except.ok.injEq, Option.some.injEq, Prod.mk.injEq] at h
      omega

/-- Witness for C1 at a concrete input: the empty source with quota 3. -/
theorem downloaded_never_exceeds_quota_witness :
    runTerm emptySrc "jazz" 3 5 0 0 = .ok (some (0, [(3, 0)])) ∧ 0 ≤ 3 :=
  ⟨rfl, downloaded_never_exceeds_quota emptySrc "jazz" 3 5 0 0 0 [(3, 0)]
    (fun _ _ _ _ hres => by
      simp only [emptySrc, Except.ok.injEq] at hres
      simp [hres.symm])
    (Nat.zero_le 3) rfl⟩

/-- C2: the quota planner is integer floor division `count // len(terms)`,
the product with the term count never exceeds the target (remainder
dropped), 100 over 3 terms gives 33, and `download_genre_tracks` applies
this one quota to every term of the collection. -/
theorem quotaPerTerm_floor_div (target termCount : Nat) (h : 0 < termCount) :
    quotaPlan target termCount = .ok (target / termCount) ∧
    termCount * (target / termCount) ≤ target ∧
    quotaPlan 100 3 = .ok 33 ∧
    ∀ (src : MediaSource) (terms : List String) (fuel : Nat),
      terms.length = termCount →
      download_genre_tracks src terms target fuel =
        runTerms src (target / termCount) fuel terms := by
  refine ⟨?_, ?_, rfl, ?_⟩
  · simp [quotaPlan, Nat.pos_iff_ne_zero.mp h]
  · calc termCount * (target / termCount)
        = (target / termCount) * termCount := Nat.mul_comm _ _
      _ ≤ target := Nat.div_mul_le_self _ _
  · intro src terms fuel hlen
    simp [download_genre_tracks, quotaPlan, hlen, Nat.pos_iff_ne_zero.mp h]

/-- Witness for C2 at target 100 and 3 terms. -/
theorem quotaPerTerm_floor_div_witness :
    quotaPlan 100 3 = Except.ok 33 ∧ 3 * (100 / 3) ≤ 100 :=
  ⟨(quotaPerTerm_floor_div 100 3 (by decide)).2.2.1,
   (quotaPerTerm_floor_div 100 3 (by decide)).2.1⟩

/-- C3: while `downloaded < quota`, a search call returning the empty
sequence terminates the term immediately with the current count and no
further search call (so an empty first page gives fetched 0 and exactly
one search call), while a non-empty page — in particular one whose
fetches all fail, `n = 0` — does not terminate the loop: pagination
continues at the next batch offset. -/
theorem empty_page_terminates
    (src : MediaSource) (term : String) (quota fuel d b n r : Nat)
    (results : List Candidate) (calls : List (Nat × Nat)) :
    (d < quota →
      src.search term (min BATCH_SIZE (quota - d)) (b * BATCH_SIZE) = .ok [] →
      runTerm src term quota (fuel + 1) d b =
        .ok (some (d, [(min BATCH_SIZE (quota - d), b * BATCH_SIZE)]))) ∧
    (0 < quota →
      src.search term (min BATCH_SIZE quota) 0 = .ok [] →
      runTerm src term quota (fuel + 1) 0 0 =
        .ok (some (0, [(min BATCH_SIZE quota, 0)]))) ∧
    (d < quota →
      src.search term (min BATCH_SIZE (quota - d)) (b * BATCH_SIZE) = .ok results →
      results ≠ [] →
      dispatchE src.download results = .ok n →
      runTerm src term quota fuel (d + n) (b + 1) = .ok (some (r, calls)) →
      runTerm src term quota (fuel + 1) d b =
        .ok (some (r, (min BATCH_SIZE (quota - d), b * BATCH_SIZE) :: calls))) := by
  refine ⟨?_, ?_, ?_⟩
  · intro h1 h2
    rw [runTerm, if_pos h1, h2]
    rfl
  · intro h1 h2
    rw [runTerm, if_pos h1]
    simp only [Nat.sub_zero, Nat.zero_mul] at h2 ⊢
    rw [h2]
    rfl
  · intro h1 h2 h3 h4 h5
    have hemp : results.isEmpty = false := by
      cases results with
      | nil => exact absurd rfl h3
      | cons a l => rfl
    rw [runTerm, if_pos h1, h2]
    simp only [hemp, Bool.false_eq_true, if_false, h4, h5]

/-- Witness for C3: an empty first page with quota 3 gives fetched 0 and
one search call; a one-candidate failing first page with quota 1 leads to
a second search call at offset 50. -/
theorem empty_page_terminates_witness :
    runTerm emptySrc "t" 3 1 0 0 = .ok (some (0, [(3, 0)])) ∧
    runTerm oneFailSrc "t" 1 2 0 0 = .ok (some (0, [(1, 0), (1, 50)])) := by
  constructor
  · exact (empty_page_terminates emptySrc "t" 3 0 0 0 0 0 [] []).2.1
      (by decide) rfl
  · exact (empty_page_terminates oneFailSrc "t" 1 1 0 0 0 0
      [{ title := "b", url := "bad", duration := 0, id := "y" }] [(1, 50)]).2.2
      (by decide) rfl (by decide) rfl rfl

/-- C4 counterexample: with quota 55, the first page requests 50 at
offset 0 (all succeed) and the second requests 5 at offset 50 (its one
candidate fails); the third search call is issued at offset 100, not at
55 = 50 + 5, the sum of the previous request sizes. -/
theorem offset_advance_counterexample :
    runTerm partialPageSrc "rock" 55 3 0 0 =
      .ok (some (50, [(50, 0), (5, 50), (5, 100)])) ∧
    (100 : Nat) ≠ 50 + 5 :=
  ⟨rfl, by decide⟩

/-- C4 amended: the offset passed to the i-th search call of a paginator
run starting at batch index b is (b + i) * BATCH_SIZE — the offset
advances by the fixed page size BATCH_SIZE per processed page, not by the
requested size min BATCH_SIZE remaining. -/
theorem offset_advances_by_BATCH_SIZE
    (src : MediaSource) (term : String) (quota fuel d b r : Nat)
    (calls : List (Nat × Nat))
    (h : runTerm src term quota fuel d b = .ok (some (r, calls)))
    (i : Nat) (hi : i < calls.length) :
    (calls[i]).2 = (b + i) * BATCH_SIZE := by
  induction fuel generalizing d b r calls i with
  | zero => simp [runTerm] at h
  | succ fuel ih =>
    rw [runTerm] at h
    by_cases hlt : d < quota
    · rw [if_pos hlt] at h
      split at h
      · exact absurd h (by simp)
      · rename_i results hs
        split at h
        · simp only [Except.ok.injEq, Option.some.injEq, Prod.mk.injEq] at h
          obtain ⟨-, hcalls⟩ := h
          subst hcalls
          cases i with
          | zero => simp
          | succ j =>
            simp only [List.length_cons, List.length_nil] at hi
            exact absurd hi (by omega)
        · split at h
          · exact absurd h (by simp)
          · rename_i n hdisp
            split at h
            · exact absurd h (by simp)
            · exact absurd h (by simp)
            · rename_i final cs hrec
              simp only [Except.ok.injEq, Option.some.injEq, Prod.mk.injEq] at h
              obtain ⟨-, hcalls⟩ := h
              subst hcalls
              cases i with
              | zero => simp
              | succ j =>
                have hj : j < cs.length := by
                  simpa using hi
                have hih := ih (d + n) (b + 1) final cs hrec j hj
                have harith : b + 1 + j = b + (j + 1) := by omega
                rw [List.getElem_cons_succ]
                rw [← harith]
                exact hih
    · rw [if_neg hlt] at h
      simp only [Except.ok.injEq, Option.some.injEq, Prod.mk.injEq] at h
      obtain ⟨-, hcalls⟩ := h
      subst hcalls
      simp at hi

/-- Witness for C4's amended claim: the single search call of a run over
an exhausted source is at offset (0 + 0) * BATCH_SIZE. -/
theorem offset_advances_by_BATCH_SIZE_witness :
    runTerm emptySrc "t" 5 1 0 0 = .ok (some (0, [(5, 0)])) ∧
    (([((5 : Nat), (0 : Nat))])[0]).2 = (0 + 0) * BATCH_SIZE :=
  ⟨rfl, offset_advances_by_BATCH_SIZE emptySrc "t" 5 1 0 0 0 [(5, 0)] rfl 0 (by decide)⟩

/-- C5 counterexample: a download error ("boom") raised while processing
the first genre's term propagates out of the whole run — the result is an
error and the second genre is never reached, instead of the error being
caught and processing continuing. -/
theorem orchestrator_no_catch_counterexample :
    mainRun raisingSrc 1 [("rock", ["guitar"], 1), ("jazz", ["sax"], 1)] =
      .error "boom" := rfl

/-- C5 amended: the orchestrator has no exception handler — any error
raised while processing one genre's terms propagates through
`download_genre_tracks` and `main` and aborts the entire run, dropping
the remaining genres. -/
theorem term_error_aborts_run
    (src : MediaSource) (g : String) (terms : List String) (count fuel : Nat)
    (rest : List (String × List String × Nat)) (e : Err)
    (h : download_genre_tracks src terms count fuel = .error e) :
    mainRun src fuel ((g, terms, count) :: rest) = .error e := by
  simp only [mainRun, h]

/-- Witness for C5's amended claim: the raising source aborts a
single-genre run. -/
theorem term_error_aborts_run_witness :
    mainRun raisingSrc 1 [("pop", ["piano"], 1)] = .error "boom" :=
  term_error_aborts_run raisingSrc "pop" ["piano"] 1 1 [] "boom" rfl

/-- C6 counterexample: with zero search terms and target 0 the quota
planner still fails (Python's ZeroDivisionError), contradicting the
claimed "no failure when both are zero"; and the failure aborts the whole
run rather than only that collection — the second collection is lost. -/
theorem planner_zero_terms_counterexample :
    quotaPlan 0 0 = .error "ZeroDivisionError" ∧
    mainRun emptySrc 1 [("a", [], 0), ("b", ["x"], 0)] =
      .error "ZeroDivisionError" :=
  ⟨rfl, rfl⟩

/-- C6 amended: the quota planner fails (with ZeroDivisionError, not a
distinct InvalidInput) exactly when the term count is zero, regardless of
the target — including target 0 — and the failure propagates through
`main`, aborting the whole run, not just the offending collection. -/
theorem planner_fails_iff_zero_terms (count nTerms : Nat) (src : MediaSource)
    (g : String) (rest : List (String × List String × Nat)) (fuel : Nat) :
    (quotaPlan count nTerms = .error "ZeroDivisionError" ↔ nTerms = 0) ∧
    mainRun src fuel ((g, [], count) :: rest) = .error "ZeroDivisionError" := by
  constructor
  · constructor
    · intro h
      by_contra hne
      simp [quotaPlan, hne] at h
    · intro h
      simp [quotaPlan, h]
  · simp [mainRun, download_genre_tracks, quotaPlan]

/-- The dispatcher on a never-raising download counts exactly the
candidates whose download outcome is truthy. -/
theorem dispatchE_ok_pure (d : String → Option String) (l : List Candidate) :
    dispatchE (fun u => .ok (d u)) l =
      .ok (l.countP (fun v => pyTruthy (d v.url))) := by
  induction l with
  | nil => rfl
  | cons v rest ih =>
    simp only [dispatchE, ih, List.countP_cons]

/-- C7: for a page of candidates and a download function that never
raises, the dispatcher returns exactly the number of candidates whose
underlying fetch returned a truthy outcome, and this count is invariant
under any permutation of the page. -/
theorem dispatch_count_successes (d : String → Option String)
    (page page2 : List Candidate) (hperm : page.Perm page2) :
    dispatchE (fun u => .ok (d u)) page =
      .ok (page.countP (fun v => pyTruthy (d v.url))) ∧
    dispatchE (fun u => .ok (d u)) page = dispatchE (fun u => .ok (d u)) page2 := by
  refine ⟨dispatchE_ok_pure d page, ?_⟩
  rw [dispatchE_ok_pure d page, dispatchE_ok_pure d page2,
    hperm.countP_eq (fun v => pyTruthy (d v.url))]

/-- Witness for C7: one successful candidate in each of two trivially
permuted pages gives count 1. -/
theorem dispatch_count_successes_witness :
    dispatchE (fun _ => Except.ok (some "f.mp3"))
        [{ title := "t", url := "u", duration := 0, id := "i" }] =
      Except.ok 1 := by
  have h := dispatch_count_successes (fun _ => some "f.mp3")
    [{ title := "t", url := "u", duration := 0, id := "i" }]
    [{ title := "t", url := "u", duration := 0, id := "i" }] (List.Perm.refl _)
  simpa using h.1

/-- C8: whenever the underlying extraction raises, `YouTubeAPI.search`
swallows the error and returns the empty list — no error ever propagates
to the caller. -/
theorem search_swallows_errors
    (extract : String → Nat → Except Err (Option (List (Option RawEntry))))
    (query : String) (limit offset : Nat) (e : Err)
    (h : extract query (limit + offset) = .error e) :
    YouTubeAPI.search extract query limit offset = [] := by
  simp only [YouTubeAPI.search, h]

/-- Witness for C8 with a concretely failing extraction. -/
theorem search_swallows_errors_witness :
    YouTubeAPI.search (fun _ _ => Except.error "HTTP 500") "q" 10 0 = [] :=
  search_swallows_errors (fun _ _ => Except.error "HTTP 500") "q" 10 0 "HTTP 500" rfl

/-- C10: when the underlying extraction honours the `playlistend` cap of
limit + offset entries, `YouTubeAPI.search` returns at most `limit`
records (the first `offset` raw entries are skipped), and every returned
record is built by `processEntry` — it carries exactly the fields title,
url, duration, id. -/
theorem search_respects_limit
    (extract : String → Nat → Except Err (Option (List (Option RawEntry))))
    (query : String) (limit offset : Nat)
    (hcap : ∀ entries, extract query (limit + offset) = .ok (some entries) →
      entries.length ≤ limit + offset) :
    (YouTubeAPI.search extract query limit offset).length ≤ limit ∧
    ∀ c ∈ YouTubeAPI.search extract query limit offset,
      ∃ e, c = processEntry e := by
  unfold YouTubeAPI.search
  cases hx : extract query (limit + offset) with
  | error e => simp
  | ok o =>
    cases o with
    | none => simp
    | some entries =>
      have hlen := hcap entries hx
      constructor
      · have h1 : ((entries.drop offset).filterMap id).length ≤
            (entries.drop offset).length := List.length_filterMap_le _ _
        have h2 : (entries.drop offset).length = entries.length - offset :=
          List.length_drop _ _
        rw [List.length_map]
        omega
      · intro c hc
        simp only [List.mem_map] at hc
        obtain ⟨e, -, he⟩ := hc
        exact ⟨e, he.symm⟩

/-- Witness for C10: an extraction returning two raw entries for
limit 1, offset 1 yields at most one record. -/
theorem search_respects_limit_witness :
    (YouTubeAPI.search
      (fun _ _ => Except.ok (some
        [some { title := some "a", url := some "u", duration := some 9, id := some "v" },
         none]))
      "q" 1 1).length ≤ 1 := by
  refine (search_respects_limit
    (fun _ _ => Except.ok (some
      [some { title := some "a", url := some "u", duration := some 9, id := some "v" },
       none]))
    "q" 1 1 ?_).1
  intro entries h
  simp only [Except.ok.injEq, Option.some.injEq] at h
  rw [← h]
  decide
